import Mathlib

/-!
Verification development for the BlockSnap repository.

This file gives a shallow embedding, in Lean 4, of the parts of the
BlockSnap application that the documented behavioural claims are about:

* the dashcam chunk/session coordinator of the `DashcamView` React
  component (`uploadClip`, `startRecording`, `stopRecording` and the
  wallet-disconnect monitor effect);
* the `BlockchainProof` page's data-fetching decision logic
  (`fetchData`, `processTransactionData`, `mockTransactions`);
* the injected wallet connector's supported chain ids and the chain id
  `connectWallet` switches MetaMask to;
* the backend transaction resolver and progressive block-range scanner.
  The backend Python sources are not part of the frontend tree, so these
  two are modelled from the design document, as flagged on their
  definitions.

React component state is embedded as an explicit record threaded through
the handlers; each network call's outcome (the parsed response or an
axios error) is an explicit argument, so every handler is a pure, total
function.
-/

/-! ## Dashcam chunk/session coordinator (`DashcamView`)

State of the component: the `useState` hooks `account` (from
`useWeb3React`), `isRecording`, `recordingTime`, `sessionClips` and
`sessionId`.  `setX(v)` becomes a record update; the functional update
`setSessionClips(prev => prev + 1)` becomes `sessionClips + 1`.
-/

/-- The placeholder address `'0x0000000000000000000000000000000000000000'`
used by `uploadClip` when no wallet account is connected. -/
def defaultAddress : String := "0x0000000000000000000000000000000000000000"

/-- The `useState` state of the `DashcamView` component.  `account = none`
models a disconnected wallet (`account` falsy), `sessionId = none` models
the JavaScript `null`. -/
structure DashState where
  account : Option String
  isRecording : Bool
  recordingTime : Nat
  sessionClips : Nat
  sessionId : Option String
deriving Repr, DecidableEq

/-- The form data `uploadClip` posts to `/api/dashcam/upload`: the fields
appended to the `FormData` object (the video blob itself carries no
claim-relevant information and is omitted).  The flag fields hold the
literal strings `'true'` / `'false'` appended by the code. -/
structure ChunkRequest where
  wallet_address : String
  sequence_number : Nat
  session_id : Option String
  is_first_chunk : String
  is_last_chunk : String
deriving Repr, DecidableEq

/-- Outcome of the single `axios.post` performed by `uploadClip`:
either a response whose `data.session_id` is the given optional string,
or a thrown network error (caught by the surrounding `try`/`catch`). -/
inductive UploadOutcome where
  | success : Option String → UploadOutcome
  | failure : UploadOutcome
deriving Repr, DecidableEq

/-- The observable result of one `uploadClip` call: the component state
after the call, the upload requests issued during the call, and the
toast notification raised (if any). -/
structure UploadResult where
  state : DashState
  requests : List ChunkRequest
  toast : Option String
deriving Repr, DecidableEq

/-- The `FormData` built by `uploadClip` from the current component state:
`sequence_number` is `sessionClips`, `session_id` is `sessionId`,
`is_first_chunk` is `!sessionId ? 'true' : 'false'` and `is_last_chunk`
is `!isRecording ? 'true' : 'false'`. -/
def chunkFormData (s : DashState) (walletAddress : String) : ChunkRequest :=
  { wallet_address := walletAddress
    sequence_number := s.sessionClips
    session_id := s.sessionId
    is_first_chunk := if s.sessionId.isNone then "true" else "false"
    is_last_chunk := if !s.isRecording then "true" else "false" }

/-- State update performed on a successful upload response:
`if (response.data.session_id) { if (!sessionId) setSessionId(...);
setSessionClips(prev => prev + 1); }`. -/
def handleUploadResponse (s : DashState) (respSessionId : Option String) : DashState :=
  match respSessionId with
  | some sid =>
      { s with
        sessionId := if s.sessionId.isNone then some sid else s.sessionId
        sessionClips := s.sessionClips + 1 }
  | none => s

/-- The `uploadClip` handler of `DashcamView`.  When `account` is falsy it
continues with the default zero address (`account || defaultAddress`)
instead of aborting; in either branch it posts exactly one request and,
if the post throws, the `catch` block raises the `'Upload Failed'` toast
and leaves the state untouched. -/
def uploadClip (s : DashState) (outcome : UploadOutcome) : UploadResult :=
  match s.account with
  | none =>
      let req := chunkFormData s (s.account.getD defaultAddress)
      match outcome with
      | .success respSid =>
          { state := handleUploadResponse s respSid, requests := [req], toast := none }
      | .failure =>
          { state := s, requests := [req], toast := some "Upload Failed" }
  | some account =>
      let req := chunkFormData s account
      match outcome with
      | .success respSid =>
          { state := handleUploadResponse s respSid, requests := [req], toast := none }
      | .failure =>
          { state := s, requests := [req], toast := some "Upload Failed" }

/-- The `startRecording` handler: after the camera-permission and
media-recorder guards pass, it resets `sessionId` to `null`,
`sessionClips` to `0`, `recordingTime` to `0` and sets `isRecording`.
When a guard fails the handler returns early without touching the
session state. -/
def startRecording (hasPermission recorderReady : Bool) (s : DashState) : DashState :=
  if !hasPermission then s
  else if !recorderReady then s
  else
    { s with sessionId := none, sessionClips := 0, recordingTime := 0, isRecording := true }

/-- The wallet-monitoring effect of `DashcamView` (the `useEffect` on
`[account, isRecording]`): it only logs a warning when the wallet
disconnects mid-recording and performs no state update, so recording and
chunk emission continue. -/
def walletDisconnectMonitor (s : DashState) : DashState := s

/-- Sequential chunk uploads: the media recorder emits one chunk per
timer interval and `ondataavailable` awaits `uploadClip` for each, so the
uploads happen one after the other, each from the state left by the
previous one.  Returns the final state and the requests issued. -/
def runChunks (s : DashState) : List UploadOutcome → DashState × List ChunkRequest
  | [] => (s, [])
  | o :: os =>
      let r := uploadClip s o
      let rest := runChunks r.state os
      (rest.1, r.requests ++ rest.2)

theorem handleUploadResponse_account (s : DashState) (r : Option String) :
    (handleUploadResponse s r).account = s.account := by
  cases r <;> rfl

theorem handleUploadResponse_isRecording (s : DashState) (r : Option String) :
    (handleUploadResponse s r).isRecording = s.isRecording := by
  cases r <;> rfl

/-- The two `account` branches of `uploadClip` build the same request and
perform the same state update; only the wallet address differs, and in
the disconnected branch `account || defaultAddress` is the default
address.  This collapses both branches into one description. -/
theorem uploadClip_eq (s : DashState) (o : UploadOutcome) :
    uploadClip s o =
      let req := chunkFormData s (s.account.getD defaultAddress)
      match o with
      | .success respSid =>
          { state := handleUploadResponse s respSid, requests := [req], toast := none }
      | .failure =>
          { state := s, requests := [req], toast := some "Upload Failed" } := by
  cases h : s.account <;> cases o <;> simp [uploadClip, h]

theorem uploadClip_state_account (s : DashState) (o : UploadOutcome) :
    (uploadClip s o).state.account = s.account := by
  rw [uploadClip_eq]
  cases o with
  | success respSid => exact handleUploadResponse_account s respSid
  | failure => rfl

theorem uploadClip_state_isRecording (s : DashState) (o : UploadOutcome) :
    (uploadClip s o).state.isRecording = s.isRecording := by
  rw [uploadClip_eq]
  cases o with
  | success respSid => exact handleUploadResponse_isRecording s respSid
  | failure => rfl

theorem uploadClip_requests (s : DashState) (o : UploadOutcome) :
    (uploadClip s o).requests = [chunkFormData s (s.account.getD defaultAddress)] := by
  rw [uploadClip_eq]
  cases o <;> rfl

theorem runChunks_state_account (os : List UploadOutcome) (s : DashState) :
    (runChunks s os).1.account = s.account := by
  induction os generalizing s with
  | nil => rfl
  | cons o os ih =>
      simp only [runChunks]
      rw [ih]
      exact uploadClip_state_account s o

theorem runChunks_state_isRecording (os : List UploadOutcome) (s : DashState) :
    (runChunks s os).1.isRecording = s.isRecording := by
  induction os generalizing s with
  | nil => rfl
  | cons o os ih =>
      simp only [runChunks]
      rw [ih]
      exact uploadClip_state_isRecording s o

theorem startRecording_go (s : DashState) :
    startRecording true true s =
      { s with sessionId := none, sessionClips := 0, recordingTime := 0,
               isRecording := true } := rfl

/-! ### Claims about the dashcam coordinator -/

/-- C1: a chunk upload attempted while no wallet account is connected
does not throw: `uploadClip` completes the upload request with the
placeholder zero address `0x0000000000000000000000000000000000000000` as
`wallet_address`, recording stays in progress, and the wallet-disconnect
monitor effect leaves the component state untouched, so chunk emission
continues rather than halting. -/
theorem uploadClip_no_wallet_uses_placeholder (s : DashState) (o : UploadOutcome)
    (h : s.account = none) :
    ((uploadClip s o).requests.map fun r => r.wallet_address) = [defaultAddress]
    ∧ (uploadClip s o).state.isRecording = s.isRecording
    ∧ walletDisconnectMonitor s = s := by
  refine ⟨?_, uploadClip_state_isRecording s o, rfl⟩
  rw [uploadClip_requests]
  simp [chunkFormData, h]

/-- Witness for C1 at a concrete mid-recording state whose wallet has
disconnected. -/
def dashDisconnected : DashState :=
  { account := none, isRecording := true, recordingTime := 65,
    sessionClips := 2, sessionId := some "sess-7" }

theorem uploadClip_no_wallet_uses_placeholder_witness :
    ((uploadClip dashDisconnected (.success (some "sess-7"))).requests.map
        fun r => r.wallet_address) = [defaultAddress]
    ∧ (uploadClip dashDisconnected (.success (some "sess-7"))).state.isRecording
        = dashDisconnected.isRecording
    ∧ walletDisconnectMonitor dashDisconnected = dashDisconnected :=
  uploadClip_no_wallet_uses_placeholder dashDisconnected (.success (some "sess-7")) rfl

/-- The `supportedChainIds` array passed to the `InjectedConnector`
constructor in `connectors.js`: `24578` (BuildBear testnet) and `1337`
(local network). -/
def supportedChainIds : List Nat := [24578, 1337]

/-- The `InjectedConnector` treats a chain id as supported exactly when it
is listed in `supportedChainIds`. -/
def injectedSupports (chainId : Nat) : Bool := supportedChainIds.contains chainId

/-- The chain id `connectWallet` switches MetaMask to:
`wallet_switchEthereumChain` with `chainId: '0x60AE'`. -/
def switchTargetChainId : Nat := 0x60AE

/-- C10: the injected connector supports a chain id `c` if and only if
`c` is `24578` or `1337`; the chain id `0x60AE = 24750` that
`connectWallet` switches the wallet to before activating the connector is
not among the supported chain ids. -/
theorem injectedSupports_iff (c : Nat) :
    (injectedSupports c = true ↔ (c = 24578 ∨ c = 1337))
    ∧ switchTargetChainId = 24750
    ∧ injectedSupports switchTargetChainId = false := by
  refine ⟨?_, rfl, by decide⟩
  simp [injectedSupports, supportedChainIds, List.contains]

/-! ## The `BlockchainProof` page (`fetchData` / `processTransactionData`)

The records flowing through this page are parsed JSON objects; a missing
or `null` field is `none`, and JavaScript truthiness on these fields is
`false` exactly for `null`/missing and the empty string.  The token-id
and block-number fields can be numbers (the mock data uses numbers) or
strings (API data), so they are embedded as a small JavaScript value
type. -/

/-- A JavaScript value as it occurs in the token-id / block-number fields
of the page's records: `null`/missing, a string, or a number. -/
inductive JsVal where
  | null : JsVal
  | str : String → JsVal
  | num : Int → JsVal
deriving Repr, DecidableEq

/-- JavaScript truthiness of a `JsVal`: `null`, `''` and `0` are falsy. -/
def JsVal.truthy : JsVal → Bool
  | .null => false
  | .str s => !(s == "")
  | .num n => !(n == 0)

/-- The JavaScript `a || b` on `JsVal`s. -/
def jsOr (a b : JsVal) : JsVal := if a.truthy then a else b

/-- JavaScript truthiness of an optional string field: missing/`null` and
`''` are falsy. -/
def optTruthy : Option String → Bool
  | none => false
  | some s => !(s == "")

/-- The JavaScript `a || b` on optional string fields. -/
def optOr (a b : Option String) : Option String := if optTruthy a then a else b

/-- One item of the data fed to `processTransactionData`: a wallet NFT, a
transaction-verification response, or a mock transaction.  Field names
follow the JavaScript property names the code reads. -/
structure TxItem where
  image : Option String := none
  cid : Option String := none
  image_cid : Option String := none
  metadata_uri : Option String := none
  token_id : JsVal := .null
  tokenId : JsVal := .null
  tx_hash : Option String := none
  txHash : Option String := none
  block_number : JsVal := .null
  blockNumber : JsVal := .null
  timestamp : Option String := none
  imageCid : Option String := none
  metadataUri : Option String := none
  owner : Option String := none
  exists_on_blockchain : Bool := false
deriving Repr, DecidableEq

/-- The normalized record `processTransactionData` produces for display. -/
structure ProcessedTx where
  tokenId : JsVal
  txHash : Option String
  blockNumber : JsVal
  timestamp : Option String
  imageCid : Option String
  metadataUri : Option String
  image : Option String
  owner : Option String
deriving Repr, DecidableEq

/-- The IPFS gateway prefix the page uses to build image URLs. -/
def ipfsGatewayPrefix : String := "http://localhost:8080/ipfs/"

/-- The fixed fallback image URL. -/
def placeholderImage : String := "https://via.placeholder.com/150?text=BlockSnap+NFT"

/-- The image-URL extraction chain of `processTransactionData`: the
item's own `image` string when truthy, else an IPFS gateway URL built
from `cid`/`image_cid`, else one built from an `ipfs://` `metadata_uri`,
else `null` (the JavaScript `let imageUrl = null` left unassigned). -/
def imageUrlOf (item : TxItem) : Option String :=
  if optTruthy item.image then item.image
  else if optTruthy (optOr item.cid item.image_cid) then
    let cid := optOr item.cid item.image_cid
    some (ipfsGatewayPrefix ++ cid.getD "")
  else if optTruthy item.metadata_uri
      && (item.metadata_uri.getD "").startsWith "ipfs://" then
    let metadataCid := (item.metadata_uri.getD "").drop 7
    some (ipfsGatewayPrefix ++ metadataCid)
  else none

/-- Normalization of one item by `processTransactionData`: the image-URL
fallback chain (`imageUrlOf` followed by the fixed placeholder when still
falsy) and the `||`-defaulted display fields.  `account` is the connected
wallet account in scope in the component and `now` the current time's
ISO string (`new Date().toISOString()`). -/
def processItem (account : Option String) (now : String) (item : TxItem) : ProcessedTx :=
  let imageUrl : Option String :=
    if !optTruthy (imageUrlOf item) then some placeholderImage else imageUrlOf item
  { tokenId := jsOr (jsOr item.token_id item.tokenId) (.str "Unknown")
    txHash := optOr item.tx_hash item.txHash
    blockNumber := jsOr (jsOr item.block_number item.blockNumber) (.num 0)
    timestamp := optOr item.timestamp (some now)
    imageCid := optOr (optOr (optOr item.cid item.image_cid) item.imageCid)
      (some "Unknown")
    metadataUri := optOr (optOr item.metadata_uri item.metadataUri) (some "Unknown")
    image := imageUrl
    owner := optOr (optOr item.owner account) (some "Unknown") }

/-- `processTransactionData`: normalize every item of the incoming data. -/
def processTransactionData (account : Option String) (now : String)
    (data : List TxItem) : List ProcessedTx :=
  data.map (processItem account now)

/-- The built-in `mockTransactions` array of the page: three sample
transactions shown when no real data is available.  The three timestamp
fields are computed from `Date.now()` (two days ago, one day ago, now)
and are passed in as the parameters `ts1`, `ts2`, `ts3`. -/
def mockTransactions (ts1 ts2 ts3 : String) : List TxItem :=
  [ { tokenId := .num 1
      timestamp := some ts1
      txHash := some "0x3a8e7f5b2e0c5d1a9b8f7e6d5c4b3a2e1d0c9b8a7f6e5d4c3b2a1e0d9c8b7a6f5"
      imageCid := some "QmXyZ..."
      metadataUri := some "ipfs://QmAbc..."
      blockNumber := .num 12345678
      image := some "https://images.unsplash.com/photo-1579353977828-2a4eab540b9a?ixlib=rb-1.2.1&ixid=MnwxMjA3fDB8MHxzZWFyY2h8MXx8c2VjdXJpdHklMjBjYW1lcmF8ZW58MHx8MHx8&w=1000&q=80" },
    { tokenId := .num 2
      timestamp := some ts2
      txHash := some "0x7f6e5d4c3b2a1e0d9c8b7a6f5e4d3c2b1a0e9d8c7b6a5f4e3d2c1b0a9e8d7f6e5"
      imageCid := some "QmABC..."
      metadataUri := some "ipfs://QmXyz..."
      blockNumber := .num 12345679
      image := some "https://images.unsplash.com/photo-1566378246598-5b11a0d486cc?ixlib=rb-1.2.1&ixid=MnwxMjA3fDB8MHxzZWFyY2h8OXx8c2VjdXJpdHklMjBjYW1lcmF8ZW58MHx8MHx8&w=1000&q=80" },
    { tokenId := .num 3
      timestamp := some ts3
      txHash := some "0xd4c3b2a1e0d9c8b7a6f5e4d3c2b1a0e9d8c7b6a5f4e3d2c1b0a9e8d7f6e5d4c3"
      imageCid := some "QmDEF..."
      metadataUri := some "ipfs://QmGhi..."
      blockNumber := .num 12345680
      image := some "https://images.unsplash.com/photo-1580785692949-7b5a7ba2e3ee?ixlib=rb-1.2.1&ixid=MnwxMjA3fDB8MHxzZWFyY2h8MTJ8fHNlY3VyaXR5JTIwY2FtZXJhfGVufDB8fDB8fA%3D%3D&w=1000&q=80" } ]

/-- Outcome of one `axios` call made by `fetchData`: the parsed response
payload, or a thrown error (each call sits in its own `try`/`catch`). -/
inductive ApiResult (α : Type) where
  | ok : α → ApiResult α
  | err : ApiResult α
deriving Repr, DecidableEq

/-- The wallet NFTs `fetchData` starts from: only queried when the wallet
is active with an account, and an error or missing payload leaves the
list empty. -/
def nftDataOf (active : Bool) (account : Option String)
    (nftResp : ApiResult (List TxItem)) : List TxItem :=
  if active && account.isSome then
    match nftResp with
    | .ok nfts => nfts
    | .err => []
  else []

/-- The candidate transaction hashes: the hashes from
`/api/recent-transactions` and, only when that leaves the list empty, the
truthy `tx_hash` fields of the `/api/query-media` results. -/
def txHashesOf (recentTxResp : ApiResult (List String))
    (queryMediaResp : ApiResult (List TxItem)) : List String :=
  let txHashes : List String :=
    match recentTxResp with
    | .ok hashes => hashes
    | .err => []
  if txHashes.isEmpty then
    match queryMediaResp with
    | .ok results =>
        txHashes ++ results.filterMap
          (fun media => if optTruthy media.tx_hash then media.tx_hash else none)
    | .err => txHashes
  else txHashes

/-- Filtering of one `/api/verify/tx/:hash` response: kept only when the
call succeeded and the payload has `exists_on_blockchain` true. -/
def keepVerified (resp : ApiResult TxItem) : Option TxItem :=
  match resp with
  | .ok d => if d.exists_on_blockchain then some d else none
  | .err => none

/-- The verified transaction details: at most the first five candidate
hashes are queried, and only verifying responses are kept. -/
def txDetailsOf (verify : String → ApiResult TxItem) (txHashes : List String) :
    List TxItem :=
  (txHashes.take 5).filterMap (fun h => keepVerified (verify h))

/-- What `fetchData` leaves on screen: the processed transaction list and
whether the `'Using sample data'` notice was raised. -/
structure FetchOutput where
  transactions : List ProcessedTx
  usedSampleData : Bool
deriving Repr, DecidableEq

/-- The `fetchData` effect of the `BlockchainProof` component: wallet
NFTs first; otherwise verified recent transactions; otherwise the
built-in mock transactions together with the sample-data notice. -/
def fetchData (active : Bool) (account : Option String) (now ts1 ts2 ts3 : String)
    (nftResp : ApiResult (List TxItem)) (recentTxResp : ApiResult (List String))
    (queryMediaResp : ApiResult (List TxItem))
    (verify : String → ApiResult TxItem) : FetchOutput :=
  let nftData := nftDataOf active account nftResp
  if nftData.length > 0 then
    { transactions := processTransactionData account now nftData
      usedSampleData := false }
  else
    let txHashes := txHashesOf recentTxResp queryMediaResp
    let txDetails := txDetailsOf verify txHashes
    if txDetails.length > 0 then
      { transactions := processTransactionData account now txDetails
        usedSampleData := false }
    else
      { transactions := processTransactionData account now (mockTransactions ts1 ts2 ts3)
        usedSampleData := true }

/-! ### Claims about the `BlockchainProof` page -/

theorem optTruthy_isSome (a : Option String) (h : optTruthy a = true) :
    a.isSome = true := by
  cases a with
  | none => simp [optTruthy] at h
  | some s => rfl

theorem optOr_truthy_right (a b : Option String) (h : optTruthy b = true) :
    optTruthy (optOr a b) = true := by
  unfold optOr
  split
  · assumption
  · exact h

theorem jsOr_truthy_right (a b : JsVal) (h : b.truthy = true) :
    (jsOr a b).truthy = true := by
  unfold jsOr
  split
  · assumption
  · exact h

theorem JsVal.truthy_ne_null (a : JsVal) (h : a.truthy = true) : a ≠ JsVal.null := by
  intro he
  subst he
  simp [JsVal.truthy] at h

/-- The image field produced by `processItem` is always a truthy string:
either a value from the fallback chain or the fixed placeholder. -/
theorem processItem_image_truthy (account : Option String) (now : String)
    (item : TxItem) :
    optTruthy (processItem account now item).image = true := by
  show optTruthy
    (if !optTruthy (imageUrlOf item) then some placeholderImage else imageUrlOf item)
      = true
  split
  · decide
  · rename_i h
    simpa using h

/-- An item with none of the optional fields set: what a sparse backend
payload looks like after JSON parsing. -/
def emptyTxItem : TxItem := {}

/-- C9: `processTransactionData` never leaves the display fields null:
for every input item the produced record's image URL is a truthy string
(so never `null`), `tokenId` is truthy (never `null`/undefined), and
`imageCid` and `metadataUri` are present; on an item with no usable
fields they default to `'Unknown'` and the image to the fixed
placeholder URL. -/
theorem processItem_never_null (account : Option String) (now : String)
    (item : TxItem) :
    optTruthy (processItem account now item).image = true
    ∧ (processItem account now item).image.isSome = true
    ∧ (processItem account now item).tokenId.truthy = true
    ∧ (processItem account now item).tokenId ≠ JsVal.null
    ∧ (processItem account now item).imageCid.isSome = true
    ∧ (processItem account now item).metadataUri.isSome = true
    ∧ (processItem account now emptyTxItem).tokenId = JsVal.str "Unknown"
    ∧ (processItem account now emptyTxItem).imageCid = some "Unknown"
    ∧ (processItem account now emptyTxItem).metadataUri = some "Unknown"
    ∧ (processItem account now emptyTxItem).image = some placeholderImage := by
  have himg := processItem_image_truthy account now item
  have htok : (processItem account now item).tokenId.truthy = true := by
    exact jsOr_truthy_right _ _ (by decide)
  refine ⟨himg, optTruthy_isSome _ himg, htok, JsVal.truthy_ne_null _ htok, ?_, ?_,
    rfl, rfl, rfl, rfl⟩
  · exact optTruthy_isSome _ (optOr_truthy_right _ _ (by decide))
  · exact optTruthy_isSome _ (optOr_truthy_right _ _ (by decide))

/-- C8: when the wallet NFT query yields no NFTs and none of the (at
most five) queried transaction hashes verifies as existing on the
blockchain, `fetchData` renders the three built-in mock transactions
together with the sample-data notice instead of an empty list. -/
theorem fetchData_mock_fallback (active : Bool) (account : Option String)
    (now ts1 ts2 ts3 : String) (nftResp : ApiResult (List TxItem))
    (recentTxResp : ApiResult (List String)) (queryMediaResp : ApiResult (List TxItem))
    (verify : String → ApiResult TxItem)
    (h1 : nftDataOf active account nftResp = [])
    (h2 : ∀ h ∈ (txHashesOf recentTxResp queryMediaResp).take 5,
        keepVerified (verify h) = none) :
    fetchData active account now ts1 ts2 ts3 nftResp recentTxResp queryMediaResp verify
      = { transactions :=
            processTransactionData account now (mockTransactions ts1 ts2 ts3)
          usedSampleData := true }
    ∧ (mockTransactions ts1 ts2 ts3).length = 3 := by
  refine ⟨?_, rfl⟩
  have hdetails : txDetailsOf verify (txHashesOf recentTxResp queryMediaResp) = [] := by
    unfold txDetailsOf
    exact List.filterMap_eq_nil_iff.mpr h2
  simp [fetchData, h1, hdetails]

/-- Witness for C8: no wallet, one recent transaction hash whose
verification call errors out. -/
theorem fetchData_mock_fallback_witness :
    fetchData false none "now" "t1" "t2" "t3" ApiResult.err
        (ApiResult.ok ["0xaaa"]) ApiResult.err (fun _ => ApiResult.err)
      = { transactions :=
            processTransactionData none "now" (mockTransactions "t1" "t2" "t3")
          usedSampleData := true }
    ∧ (mockTransactions "t1" "t2" "t3").length = 3 :=
  fetchData_mock_fallback false none "now" "t1" "t2" "t3" ApiResult.err
    (ApiResult.ok ["0xaaa"]) ApiResult.err (fun _ => ApiResult.err) rfl
    (fun _ _ => rfl)

/-! ## Backend transaction resolver and block-range scanner

The Flask backend (`blockchain_handler.py` and the verification API) is
not part of the source tree — only its API surface, its design document
and a stale compiled artifact of an early version are.  The two
components below are therefore modelled from the specification text
(sections 4.1, 4.2 and 7 of the design document), as their doc comments
state. -/

/-- Modelled from the spec: the media-type classification of the
transaction resolver (photo mint, one chunk of a segmented video, a
whole video session, or an unrelated/unknown contract interaction);
`blockchain_handler.py` is missing from the source tree. -/
inductive MediaType where
  | photo
  | video_chunk
  | video_session
  | contract_interaction
deriving Repr, DecidableEq

/-- Modelled from the spec: one event log emitted by the contract and
found in a transaction receipt, carrying the structured fields (token
id, CID, session id) the resolver extracts; the backend source holding
the real log decoding is missing from the source tree. -/
structure LogEvent where
  event : String
  token_id : Option Nat := none
  cid : Option String := none
  session_id : Option Nat := none
deriving Repr, DecidableEq

/-- Modelled from the spec: a confirmed transaction together with its
receipt, as the chain client returns them to the resolver — the target
address, the function selector (leading bytes of the input data, stood
for by the function name) and the receipt's logs. -/
structure TxRecord where
  to_address : String
  selector : String
  logs : List LogEvent
deriving Repr, DecidableEq

/-- The `VerificationResult` of the data model: computed on demand by the
resolver, never stored. -/
structure VerificationResult where
  exists_on_blockchain : Bool
  media_type : Option MediaType := none
  token_id : Option Nat := none
  cid : Option String := none
  session_id : Option Nat := none
  message : Option String := none
deriving Repr, DecidableEq

/-- Modelled from the spec: the fixed table of known function selectors
(mint-photo, upload-chunk, create-session) the resolver classifies
against. -/
def knownSelectors : List (String × MediaType) :=
  [("mintPhoto", MediaType.photo),
   ("uploadVideoChunk", MediaType.video_chunk),
   ("createVideoSession", MediaType.video_session)]

def classifyBySelector (sel : String) : Option MediaType :=
  (knownSelectors.find? (fun p => p.1 == sel)).map (fun p => p.2)

/-- Modelled from the spec: the known event-log shapes (the Minted /
Uploaded events carrying token id, CID and owner) cross-referenced by the
resolver. -/
def knownEvents : List (String × MediaType) :=
  [("PhotoMinted", MediaType.photo),
   ("VideoChunkUploaded", MediaType.video_chunk),
   ("VideoSessionCreated", MediaType.video_session)]

def classifyByLogs (logs : List LogEvent) : Option MediaType :=
  logs.findSome? (fun l => (knownEvents.find? (fun p => p.1 == l.event)).map (fun p => p.2))

def extractTokenId (logs : List LogEvent) : Option Nat :=
  logs.findSome? (fun l => l.token_id)

def extractCid (logs : List LogEvent) : Option String :=
  logs.findSome? (fun l => l.cid)

def extractSessionId (logs : List LogEvent) : Option Nat :=
  logs.findSome? (fun l => l.session_id)

/-- Modelled from the spec: the transaction resolver (design document
section 4.1); `blockchain_handler.py` is missing from the source tree.
Looks the hash up with the chain client (`chain` returns `none` when the
hash is unknown to the chain), returns a definitive does-not-exist
result for an unknown hash, a not-found result when the target address
is not the known contract, classifies by the selector table, falls back
to the receipt's event logs and finally to
`contract_interaction` (type unknown); the structured fields come from
the logs, which are authoritative post-execution. -/
def verifyTransaction (chain : String → Option TxRecord)
    (contractAddress txHash : String) : VerificationResult :=
  match chain txHash with
  | none => { exists_on_blockchain := false }
  | some tx =>
      if tx.to_address ≠ contractAddress then
        { exists_on_blockchain := true
          message := some "Transaction not related to this contract" }
      else
        let mediaType :=
          match classifyBySelector tx.selector with
          | some t => t
          | none =>
              match classifyByLogs tx.logs with
              | some t => t
              | none => MediaType.contract_interaction
        { exists_on_blockchain := true
          media_type := some mediaType
          token_id := extractTokenId tx.logs
          cid := extractCid tx.logs
          session_id := extractSessionId tx.logs }

/-- C6: for a transaction hash unknown to the chain the resolver returns
an explicit result with `exists_on_blockchain = false` and no media-type
classification (not an exception — the resolver is a total function into
`VerificationResult`); for a confirmed transaction to the application's
contract it always produces a classification, falling back to
`contract_interaction` ("type unknown") when neither the selector nor
the logs match a known shape. -/
theorem verifyTransaction_cases (chain : String → Option TxRecord)
    (contractAddress txHash : String) :
    (chain txHash = none →
      (verifyTransaction chain contractAddress txHash).exists_on_blockchain = false
      ∧ (verifyTransaction chain contractAddress txHash).media_type = none)
    ∧ (∀ tx, chain txHash = some tx → tx.to_address = contractAddress →
        (verifyTransaction chain contractAddress txHash).exists_on_blockchain = true
        ∧ (verifyTransaction chain contractAddress txHash).media_type.isSome = true
        ∧ (classifyBySelector tx.selector = none → classifyByLogs tx.logs = none →
            (verifyTransaction chain contractAddress txHash).media_type
              = some MediaType.contract_interaction)) := by
  constructor
  · intro h
    simp [verifyTransaction, h]
  · intro tx htx haddr
    refine ⟨?_, ?_, ?_⟩
    · simp only [verifyTransaction, htx, haddr]
      split <;> rfl
    · simp [verifyTransaction, htx, haddr]
    · intro hsel hlogs
      simp [verifyTransaction, htx, haddr, hsel, hlogs]

/-- Witness chain for C6: one confirmed transaction to the contract with
an unrecognized selector and no recognizable logs; every other hash is
unknown. -/
def sampleChain : String → Option TxRecord := fun h =>
  if h == "0xbeef" then
    some { to_address := "0xC0FFEE", selector := "approve", logs := [] }
  else none

theorem verifyTransaction_cases_witness :
    ((verifyTransaction sampleChain "0xC0FFEE" "0xdead").exists_on_blockchain = false
      ∧ (verifyTransaction sampleChain "0xC0FFEE" "0xdead").media_type = none)
    ∧ (verifyTransaction sampleChain "0xC0FFEE" "0xbeef").media_type
        = some MediaType.contract_interaction := by
  constructor
  · exact (verifyTransaction_cases sampleChain "0xC0FFEE" "0xdead").1 rfl
  · exact ((verifyTransaction_cases sampleChain "0xC0FFEE" "0xbeef").2
      { to_address := "0xC0FFEE", selector := "approve", logs := [] }
      rfl rfl).2.2 rfl rfl

/-- Modelled from the spec: the tokens of the scanned owner minted per
block, the mock ground truth behind the chain's `eth_getLogs` — the
backend scanner source is missing from the source tree.  A window query
of `w` blocks ending at the head returns the events of the blocks `b`
with `head < b + w` (i.e. the last `w` blocks, clamped at the genesis
block). -/
def tokensInRange (mint : Nat → List Nat) (head w : Nat) : List Nat :=
  ((List.range (head + 1)).filter (fun b => decide (head < b + w))).flatMap mint

/-- The unconstrained reference query: all of the owner's tokens over the
whole chain history. -/
def allOwnedTokens (mint : Nat → List Nat) (head : Nat) : List Nat :=
  (List.range (head + 1)).flatMap mint

/-- Modelled from the spec: the progressive block-range scanner (design
document section 4.2); the backend source is missing from the source
tree.  It attempts the windows in order, largest first; a provider
rejection (`none`) of one window falls through to the next smaller one,
and when even the minimum window is rejected the result is declared
unavailable (`none`, displayed as "no NFTs found"), not an error. -/
def progressiveScan (provider : Nat → Option (List Nat)) :
    List Nat → Option (List Nat)
  | [] => none
  | w :: rest =>
      match provider w with
      | some tokens => some tokens
      | none => progressiveScan provider rest

/-- Modelled from the spec: the decreasing block-range windows the
scanner retries with (1000 blocks, then 100 = the minimum below which
the result is declared unavailable). -/
def blockRanges : List Nat := [1000, 100]

/-- A mock provider with a range cap: it rejects (rate/size error) every
window larger than `cap` blocks and otherwise answers faithfully from
the ground truth. -/
def rangeCappedProvider (cap : Nat) (mint : Nat → List Nat) (head : Nat) :
    Nat → Option (List Nat) :=
  fun w => if w ≤ cap then some (tokensInRange mint head w) else none

theorem filter_bind_of_vanish (mint : Nat → List Nat) (p : Nat → Bool)
    (l : List Nat) (h : ∀ b ∈ l, p b = false → mint b = []) :
    (l.filter p).flatMap mint = l.flatMap mint := by
  induction l with
  | nil => rfl
  | cons b l ih =>
      have ih2 := ih (fun x hx hpx => h x (List.mem_cons_of_mem _ hx) hpx)
      cases hp : p b with
      | true => simp [List.filter_cons, hp, List.flatMap_cons, ih2]
      | false =>
          have hb := h b (List.mem_cons_self b l) hp
          simp [List.filter_cons, hp, List.flatMap_cons, ih2, hb]

/-- Any window at least as large as the minimum one returns the full
reference token set, provided the owner's tokens all sit within the
minimum window of the head. -/
theorem tokensInRange_eq_all (mint : Nat → List Nat) (head w : Nat)
    (hw : 100 ≤ w) (hrecent : ∀ b, b + 100 ≤ head → mint b = []) :
    tokensInRange mint head w = allOwnedTokens mint head := by
  unfold tokensInRange allOwnedTokens
  apply filter_bind_of_vanish
  intro b _ hpb
  have hble : ¬ (head < b + w) := by simpa using hpb
  exact hrecent b (by omega)

/-- C7 (amended): the progressive scanner returns the same token set
whether the largest window succeeds immediately (`1000 ≤ cap`) or the
provider rejects large ranges and the scan falls back to the smaller
window (`100 ≤ cap < 1000`) — in both cases exactly the unconstrained
reference query — *provided* every token of the owner was minted within
the minimum (100-block) window of the current head; and, without any
such proviso, when even the minimum window is rejected (`cap < 100`)
the result is reported as unavailable (`none`, "no NFTs found"), not as
an error.  The proviso is necessary: as the unconditional claim stands
it is refuted by a token minted further back than the fallback window
reaches (see the counterexample below), since a window query only
covers the blocks it spans. -/
theorem progressiveScan_window_independent (mint : Nat → List Nat) (head cap : Nat)
    (hrecent : ∀ b, b + 100 ≤ head → mint b = []) :
    (100 ≤ cap →
      progressiveScan (rangeCappedProvider cap mint head) blockRanges
        = some (allOwnedTokens mint head))
    ∧ (cap < 100 →
      progressiveScan (rangeCappedProvider cap mint head) blockRanges = none) := by
  constructor
  · intro hcap
    by_cases h1000 : 1000 ≤ cap
    · simp [progressiveScan, blockRanges, rangeCappedProvider, h1000,
        tokensInRange_eq_all mint head 1000 (by omega) hrecent]
    · simp [progressiveScan, blockRanges, rangeCappedProvider, h1000, hcap,
        tokensInRange_eq_all mint head 100 (by omega) hrecent]
  · intro hcap
    have h1 : ¬ (1000 ≤ cap) := by omega
    have h2 : ¬ (100 ≤ cap) := by omega
    simp [progressiveScan, blockRanges, rangeCappedProvider, h1, h2]

/-- Ground truth for the C7 witness: token `7` minted at block `45` to
the scanned owner, nothing else. -/
def sampleMint : Nat → List Nat := fun b => if b == 45 then [7] else []

/-- Witness for C7: a provider capped at 500 blocks rejects the
1000-block window, the scan falls back to the 100-block window, and the
result still equals the unconstrained reference query. -/
theorem progressiveScan_window_independent_witness :
    progressiveScan (rangeCappedProvider 500 sampleMint 50) blockRanges
      = some (allOwnedTokens sampleMint 50) :=
  (progressiveScan_window_independent sampleMint 50 500
    (fun b hb => absurd hb (by omega))).1 (by omega)

/-- Ground truth refuting the unconditional form of C7: token `7`
minted at block `50`, with the chain head at block `200` — outside the
minimum 100-block window but inside the 1000-block one. -/
def deepMint : Nat → List Nat := fun b => if b == 50 then [7] else []

set_option maxRecDepth 8000 in
/-- Counterexample to C7 as stated: the retry levels do not always
return the same set of tokens.  With a token minted at block 50 and the
head at 200, a provider that accepts the largest window returns the
full reference set `[7]`, while a provider capped at 500 blocks rejects
the 1000-block window, falls back to the 100-block window (blocks
101–200) and returns the empty set — a different result from a scan
whose largest window succeeds immediately. -/
theorem progressiveScan_retry_levels_differ :
    progressiveScan (rangeCappedProvider 1000 deepMint 200) blockRanges
        = some (allOwnedTokens deepMint 200)
    ∧ progressiveScan (rangeCappedProvider 500 deepMint 200) blockRanges = some []
    ∧ progressiveScan (rangeCappedProvider 500 deepMint 200) blockRanges
        ≠ progressiveScan (rangeCappedProvider 1000 deepMint 200) blockRanges := by
  refine ⟨by decide, by decide, by decide⟩
